import Mathlib

/-
Verification of the entity-matching pipeline in src/app.py against its
natural-language specification.  The Python source is shallowly embedded:
each dataclass becomes a structure, each function becomes a Lean function,
and every reachable Python exception becomes an explicit error value of an
Except type.  Machine behaviour that the source delegates to libraries
(str.lower, str.replace, pandas Series.drop_duplicates) is modelled
explicitly next to the function that uses it.
-/

set_option maxHeartbeats 1000000

namespace SparkDemo

/-- Models the Address dataclass (src/app.py lines 10-14).  The
standardizer stores None for any field missing from the raw element, so
every field is an Option. -/
structure Address where
  value : Option String
  country : Option String
  postal_code : Option String
deriving DecidableEq

/-- Models the Alias dataclass (src/app.py lines 17-20).  standardize_aliases
stores None for a missing value or type key, hence the Option fields. -/
structure Alias where
  value : Option String
  type_ : Option String
deriving DecidableEq

/-- Models the IDNumber dataclass (src/app.py lines 23-26). -/
structure IDNumber where
  value : Option String
  comment : Option String
deriving DecidableEq

/-- Models the Record dataclass (src/app.py lines 29-40). -/
structure Record where
  id_ : Int
  type_ : String
  name : String
  aliases : List Alias
  nationality : List String
  addresses : List Address
  id_numbers : List IDNumber
  place_of_birth : Option String
  position : Option String
  reported_dates_of_birth : List String
deriving DecidableEq

/-- Models the match-evidence dicts built by get_name_matches,
get_alias_matches and get_id_matches.  Each dict shape, identified by its
key set, becomes one constructor:
nameToName carries gbr_name and ofac_name (line 237);
nameToAlias carries gbr_name and ofac_alias (line 243);
aliasToName carries gbr_alias and ofac_name (line 258);
aliasToAlias carries gbr_alias and ofac_alias (lines 264-267);
idMatch carries gbr_id_number, gbr_comment, ofac_id_number and ofac_comment
(lines 282-287).  The id-number fields keep their Option type because the
source copies IDNumber fields verbatim, None included. -/
inductive Match where
  | nameToName (gbr_name ofac_name : String)
  | nameToAlias (gbr_name ofac_alias : String)
  | aliasToName (gbr_alias ofac_name : String)
  | aliasToAlias (gbr_alias ofac_alias : String)
  | idMatch (gbr_id_number gbr_comment ofac_id_number ofac_comment : Option String)
deriving DecidableEq

/-- Models the output dict built by get_all_matches (lines 221-225) and
rebuilt by drop_duplicates (lines 308-314). -/
structure OutputRecord where
  gbr_id : Int
  ofac_id : Int
  matches_ : List Match
deriving DecidableEq

/-- Runtime exceptions reachable in the matching half of the source:
attributeError models the AttributeError raised when clean_name receives
None (None has no lower method); typeError models the TypeError raised by
pandas drop_duplicates when asked to hash a dict. -/
inductive PyErr where
  | attributeError
  | typeError
deriving DecidableEq

/-- Lowercasing of one character, as Python str.lower acts on ASCII.  The
repository data is ASCII; code points outside the range A-Z are returned
unchanged by this model. -/
def pyCharLower (c : Char) : Char :=
  if 65 ≤ c.toNat ∧ c.toNat ≤ 90 then Char.ofNat (c.toNat + 32) else c

/-- Python str.lower over a whole string, character-wise (ASCII model). -/
def pyLower (l : List Char) : List Char := l.map pyCharLower

/-- Python str.replace specialised to a single-character pattern, the only
form clean_name uses: every occurrence of the character c is replaced by
the character list t. -/
def replaceChar (c : Char) (t : List Char) (l : List Char) : List Char :=
  l.flatMap (fun a => if a = c then t else [a])

/-- Models clean_name (src/app.py lines 293-303): lowercase the string,
then replace each hyphen by a space, then delete every period, then every
comma, then every apostrophe (character 39), in exactly that order. -/
def clean_name (name : String) : String :=
  ⟨replaceChar (Char.ofNat 39) []
    (replaceChar (Char.ofNat 44) []
      (replaceChar (Char.ofNat 46) []
        (replaceChar (Char.ofNat 45) [Char.ofNat 32]
          (pyLower name.data))))⟩

/-- Restates the name-normalisation contract of spec section 4.1 in its own
words, for comparison with clean_name: lowercase; hyphen to space; then
filter out periods, commas and apostrophes.  Kept separate from the source
embedding so the agreement of the two is a theorem, not a definition. -/
def cleanNameSpec (s : String) : String :=
  ⟨((((s.data.map pyCharLower).map
        (fun a => if a = Char.ofNat 45 then Char.ofNat 32 else a)).filter
          (fun a => a ≠ Char.ofNat 46)).filter
            (fun a => a ≠ Char.ofNat 44)).filter
              (fun a => a ≠ Char.ofNat 39)⟩

/-- Python expression clean_name applied to an alias value: a string value
is cleaned, while a None value raises AttributeError (None has no lower
method), as at src/app.py lines 242, 257 and 263. -/
def cleanOpt : Option String → Except PyErr String
  | some s => .ok (clean_name s)
  | none => .error .attributeError

/-- Loop of get_name_matches over the OFAC aliases (src/app.py lines
241-244): each alias whose cleaned value equals the cleaned GBR name
contributes one nameToAlias entry; a None alias value raises. -/
def nameAliasLoop (gbr_name : String) : List Alias → Except PyErr (List Match)
  | [] => .ok []
  | a :: rest =>
    match a.value with
    | none => .error .attributeError
    | some v => do
      let ms ← nameAliasLoop gbr_name rest
      pure ((if clean_name gbr_name = clean_name v then [Match.nameToAlias gbr_name v] else []) ++ ms)

/-- Models get_name_matches (src/app.py lines 230-246). -/
def get_name_matches (gbr_record ofac_record : Record) : Except PyErr (List Match) := do
  let first :=
    if clean_name gbr_record.name = clean_name ofac_record.name then
      [Match.nameToName gbr_record.name ofac_record.name]
    else []
  let rest ← nameAliasLoop gbr_record.name ofac_record.aliases
  pure (first ++ rest)

/-- Inner loop of get_alias_matches over the OFAC aliases (src/app.py lines
262-268) for one GBR alias value gv. -/
def aliasAliasLoop (gv : String) : List Alias → Except PyErr (List Match)
  | [] => .ok []
  | ra :: rest =>
    match ra.value with
    | none => .error .attributeError
    | some rv => do
      let ms ← aliasAliasLoop gv rest
      pure ((if clean_name gv = clean_name rv then [Match.aliasToAlias gv rv] else []) ++ ms)

/-- Outer loop of get_alias_matches over the GBR aliases (src/app.py lines
254-268): each GBR alias is first compared against the OFAC name, then
against every OFAC alias. -/
def aliasOuterLoop (ofac_name : String) (ofac_aliases : List Alias) :
    List Alias → Except PyErr (List Match)
  | [] => .ok []
  | ga :: rest =>
    match ga.value with
    | none => .error .attributeError
    | some gv => do
      let inner ← aliasAliasLoop gv ofac_aliases
      let ms ← aliasOuterLoop ofac_name ofac_aliases rest
      pure ((if clean_name gv = clean_name ofac_name then [Match.aliasToName gv ofac_name] else []) ++ inner ++ ms)

/-- Models get_alias_matches (src/app.py lines 249-270). -/
def get_alias_matches (gbr_record ofac_record : Record) : Except PyErr (List Match) :=
  aliasOuterLoop ofac_record.name ofac_record.aliases gbr_record.aliases

/-- Inner loop of get_id_matches over the OFAC id numbers (src/app.py lines
280-288) for one GBR id number.  Python equality on the value fields makes
None equal to None, which Option equality reproduces; no exception is
reachable here. -/
def idInnerLoop (li : IDNumber) : List IDNumber → List Match
  | [] => []
  | ri :: rest =>
    (if li.value = ri.value then
      [Match.idMatch li.value li.comment ri.value ri.comment]
     else []) ++ idInnerLoop li rest

/-- Outer loop of get_id_matches over the GBR id numbers (src/app.py lines
279-288). -/
def idOuterLoop (ofac_ids : List IDNumber) : List IDNumber → List Match
  | [] => []
  | li :: rest => idInnerLoop li ofac_ids ++ idOuterLoop ofac_ids rest

/-- Models get_id_matches (src/app.py lines 273-290); unlike the name and
alias rules it is total. -/
def get_id_matches (gbr_record ofac_record : Record) : List Match :=
  idOuterLoop ofac_record.id_numbers gbr_record.id_numbers

/-- Models get_all_matches (src/app.py lines 213-227): concatenates the
name matches, the alias matches and the id matches, in that order, into
the output dict. -/
def get_all_matches (gbr_record ofac_record : Record) : Except PyErr OutputRecord := do
  let name_matches ← get_name_matches gbr_record ofac_record
  let alias_matches ← get_alias_matches gbr_record ofac_record
  let id_matches := get_id_matches gbr_record ofac_record
  pure { gbr_id := gbr_record.id_, ofac_id := ofac_record.id_,
         matches_ := name_matches ++ alias_matches ++ id_matches }

/-- Models drop_duplicates (src/app.py lines 306-316).  The source copies
gbr_id and ofac_id into a fresh dict and sets matches to the result of
building a pandas Series from the match list and calling drop_duplicates
then to_list on it.  pandas drop_duplicates deduplicates object values
through a hash table, hashing every element; the match entries are Python
dicts, which are unhashable, so on any non-empty match list the call
raises TypeError before producing anything.  On an empty list the empty
series round-trips to an empty list without touching any element. -/
def drop_duplicates (output_record : OutputRecord) : Except PyErr OutputRecord :=
  match output_record.matches_ with
  | [] => .ok { gbr_id := output_record.gbr_id, ofac_id := output_record.ofac_id, matches_ := [] }
  | _ :: _ => .error .typeError

/-- Models the RDD pipeline inside main (src/app.py lines 53-62): form the
cartesian product of the two record collections, map get_all_matches over
it, keep the output records whose match list is non-empty (Python
truthiness of a list), and map drop_duplicates over the survivors.  The
Spark runtime, file handling and shard layout are outside the embedding;
a task exception aborts the job, modelled by Except. -/
def runPipeline (gbr ofac : List Record) : Except PyErr (List OutputRecord) := do
  let pairs := gbr.flatMap (fun g => ofac.map (fun o => (g, o)))
  let allRecords ← pairs.mapM (fun p => get_all_matches p.1 p.2)
  let nonEmpty := allRecords.filter (fun r => !r.matches_.isEmpty)
  nonEmpty.mapM drop_duplicates

/-- Dynamically-typed values of the raw per-line map fed to
standardize_record.  The source obtains this map at src/app.py lines 78-79
by rewriting the null tokens of the line and evaluating it, producing
nested Python ints, strings, lists, dicts and None; those five shapes are
the raw value universe of the wire format. -/
inductive RawValue where
  | int (n : Int)
  | str (s : String)
  | list (xs : List RawValue)
  | dict (kvs : List (String × RawValue))
  | none

/-- Errors of standardize_record.  missingRequiredField models the
ValueError raised with a field-not-found message at src/app.py lines 84,
89 and 94; typeCoercionError models the exception raised by int() on a
value that is not integer-coercible (line 82); pyError models the dynamic
type errors reachable inside the element-wise sub-standardizers when a raw
field has an unexpected shape. -/
inductive StdErr where
  | missingRequiredField (field : String)
  | typeCoercionError
  | pyError
deriving DecidableEq

/-- Accumulating decimal parse of a character list: succeeds exactly when
every character is a decimal digit and at least one digit was consumed
overall (the caller checks non-emptiness). -/
def pyDigitsAux : List Char → Nat → Option Nat
  | [], acc => some acc
  | c :: rest, acc =>
    if 48 ≤ c.toNat ∧ c.toNat ≤ 57 then
      pyDigitsAux rest (acc * 10 + (c.toNat - 48))
    else Option.none

/-- Decimal integer parse modelling Python int() on a string: an optional
leading minus sign followed by a non-empty run of digits.  The leniencies
of Python int() towards surrounding whitespace, a plus sign and digit
group underscores are not modelled; no property below exercises them. -/
def pyIntOfString (s : String) : Option Int :=
  match s.data with
  | [] => Option.none
  | c :: rest =>
    if c = Char.ofNat 45 then
      match rest with
      | [] => Option.none
      | _ => (pyDigitsAux rest 0).map (fun n => -(n : Int))
    else (pyDigitsAux s.data 0).map (fun n => (n : Int))

/-- Python int() applied to a raw value (src/app.py line 82): an int is
returned unchanged, a string is parsed as a decimal integer, and every
other shape fails to coerce. -/
def pyInt : RawValue → Except StdErr Int
  | .int n => .ok n
  | .str s =>
    match pyIntOfString s with
    | some n => .ok n
    | Option.none => .error .typeCoercionError
  | _ => .error .typeCoercionError

/-- Python str() applied to a raw value (src/app.py lines 87, 92, 117,
122); str() is total.  None renders as the string None; the exact text
str() gives containers is never relied on by any property below, so a
fixed placeholder stands in for it. -/
def pyStr : RawValue → String
  | .int n => toString n
  | .str s => s
  | .none => "None"
  | .list _ => "[...]"
  | .dict _ => "{...}"

/-- Reads a string-or-absent field of one raw element the way
standardize_aliases, standardize_addresses and standardize_id_numbers do
(src/app.py lines 152-163, 178-185, 198-205): a missing key or a raw null
gives None, a string is stored unchanged, and any other shape is a
dynamic type error (Option.none result) for the element. -/
def optStrField (kvs : List (String × RawValue)) (key : String) :
    Option (Option String) :=
  match kvs.lookup key with
  | Option.none => some Option.none
  | some (.str s) => some (some s)
  | some .none => some Option.none
  | some _ => Option.none

/-- Models standardize_aliases (src/app.py lines 173-190), element-wise
over the raw list; a raw aliases value that is not a list of dicts is a
dynamic type error. -/
def standardize_aliases (aliases_list : RawValue) : Option (List Alias) :=
  match aliases_list with
  | .list xs =>
    xs.mapM (fun x =>
      match x with
      | .dict kvs => do
        let value ← optStrField kvs "value"
        let type_ ← optStrField kvs "type"
        pure { value := value, type_ := type_ : Alias }
      | _ => Option.none)
  | _ => Option.none

/-- Models standardize_addresses (src/app.py lines 147-170). -/
def standardize_addresses (address_list : RawValue) : Option (List Address) :=
  match address_list with
  | .list xs =>
    xs.mapM (fun x =>
      match x with
      | .dict kvs => do
        let value ← optStrField kvs "value"
        let country ← optStrField kvs "country"
        let postal_code ← optStrField kvs "postal_code"
        pure { value := value, country := country, postal_code := postal_code : Address }
      | _ => Option.none)
  | _ => Option.none

/-- Models standardize_id_numbers (src/app.py lines 193-210). -/
def standardize_id_numbers (id_numbers_list : RawValue) : Option (List IDNumber) :=
  match id_numbers_list with
  | .list xs =>
    xs.mapM (fun x =>
      match x with
      | .dict kvs => do
        let value ← optStrField kvs "value"
        let comment ← optStrField kvs "comment"
        pure { value := value, comment := comment : IDNumber }
      | _ => Option.none)
  | _ => Option.none

/-- Reads a list-of-strings raw field (nationality and
reported_dates_of_birth are stored verbatim at src/app.py lines 102 and
127; the wire format carries them as lists of strings, and any other
shape is treated as a dynamic type error of the decode). -/
def strListField (v : RawValue) : Option (List String) :=
  match v with
  | .list xs =>
    xs.mapM (fun x => match x with | .str s => some s | _ => Option.none)
  | _ => Option.none

/-- Lifts the dynamic type errors of the element-wise sub-standardizers
into the error type of standardize_record. -/
def liftDyn {α : Type} : Option α → Except StdErr α
  | some a => .ok a
  | Option.none => .error .pyError

/-- Models standardize_record (src/app.py lines 76-144) from the evaluated
raw map onward (the textual null rewriting and evaluation of the input
line, lines 78-79, happen before the map exists and are out of scope for
the properties below).  The three required fields raise a
missing-required-field error when absent, in the source order id, type,
name; every other recognized field defaults when absent. -/
def standardize_record (record_dict : List (String × RawValue)) :
    Except StdErr Record := do
  let id_ ←
    match record_dict.lookup "id" with
    | some v => pyInt v
    | Option.none => .error (.missingRequiredField "id")
  let type_ ←
    match record_dict.lookup "type" with
    | some v => .ok (pyStr v)
    | Option.none => .error (.missingRequiredField "type")
  let name ←
    match record_dict.lookup "name" with
    | some v => .ok (pyStr v)
    | Option.none => .error (.missingRequiredField "name")
  let aliases ←
    match record_dict.lookup "aliases" with
    | some v => liftDyn (standardize_aliases v)
    | Option.none => .ok []
  let nationality ←
    match record_dict.lookup "nationality" with
    | some v => liftDyn (strListField v)
    | Option.none => .ok []
  let addresses ←
    match record_dict.lookup "addresses" with
    | some v => liftDyn (standardize_addresses v)
    | Option.none => .ok []
  let id_numbers ←
    match record_dict.lookup "id_numbers" with
    | some v => liftDyn (standardize_id_numbers v)
    | Option.none => .ok []
  let place_of_birth :=
    match record_dict.lookup "place_of_birth" with
    | some v => some (pyStr v)
    | Option.none => Option.none
  let position :=
    match record_dict.lookup "position" with
    | some v => some (pyStr v)
    | Option.none => Option.none
  let reported_dates_of_birth ←
    match record_dict.lookup "reported_dates_of_birth" with
    | some v => liftDyn (strListField v)
    | Option.none => .ok []
  pure { id_ := id_, type_ := type_, name := name, aliases := aliases,
         nationality := nationality, addresses := addresses,
         id_numbers := id_numbers, place_of_birth := place_of_birth,
         position := position,
         reported_dates_of_birth := reported_dates_of_birth }

theorem charOfNat_toNat (n : Nat) (h : n < 55296) : (Char.ofNat n).toNat = n := by
  have hv : n.isValidChar := Or.inl h
  simp [Char.ofNat, hv, Char.toNat, Char.ofNatAux, UInt32.toNat, BitVec.toNat_ofNatLt]

theorem pyCharLower_idem (c : Char) : pyCharLower (pyCharLower c) = pyCharLower c := by
  by_cases h : 65 ≤ c.toNat ∧ c.toNat ≤ 90
  · have h1 : pyCharLower c = Char.ofNat (c.toNat + 32) := if_pos h
    have ht : (Char.ofNat (c.toNat + 32)).toNat = c.toNat + 32 :=
      charOfNat_toNat _ (by omega)
    rw [h1]
    exact if_neg (by rw [ht]; omega)
  · have h1 : pyCharLower c = c := if_neg h
    rw [h1]
    exact h1

theorem mem_replaceChar {b c : Char} {t l : List Char}
    (hb : b ∈ replaceChar c t l) : b ∈ t ∨ (b ∈ l ∧ b ≠ c) := by
  simp only [replaceChar, List.mem_flatMap] at hb
  obtain ⟨a, ha, hmem⟩ := hb
  by_cases hac : a = c
  · rw [if_pos hac] at hmem
    exact Or.inl hmem
  · rw [if_neg hac] at hmem
    simp only [List.mem_singleton] at hmem
    subst hmem
    exact Or.inr ⟨ha, hac⟩

theorem replaceChar_fixed {c : Char} {t l : List Char}
    (h : ∀ a ∈ l, a ≠ c) : replaceChar c t l = l := by
  induction l with
  | nil => rfl
  | cons a rest ih =>
    have ha : a ≠ c := h a (List.mem_cons_self a rest)
    simp only [replaceChar, List.flatMap_cons, if_neg ha] at *
    rw [ih (fun b hb => h b (List.mem_cons_of_mem a hb))]
    rfl

theorem pyLower_fixed {l : List Char}
    (h : ∀ a ∈ l, pyCharLower a = a) : pyLower l = l := by
  unfold pyLower
  induction l with
  | nil => rfl
  | cons a rest ih =>
    simp only [List.map_cons, h a (List.mem_cons_self a rest)]
    rw [ih (fun b hb => h b (List.mem_cons_of_mem a hb))]

theorem mem_pyLower {b : Char} {l : List Char} (hb : b ∈ pyLower l) :
    pyCharLower b = b := by
  simp only [pyLower, List.mem_map] at hb
  obtain ⟨a, _, rfl⟩ := hb
  exact pyCharLower_idem a

theorem clean_name_chars {s : String} :
    ∀ b ∈ (clean_name s).data,
      pyCharLower b = b ∧ b ≠ Char.ofNat 45 ∧ b ≠ Char.ofNat 46 ∧
        b ≠ Char.ofNat 44 ∧ b ≠ Char.ofNat 39 := by
  intro b hb
  change b ∈ replaceChar (Char.ofNat 39) []
      (replaceChar (Char.ofNat 44) []
        (replaceChar (Char.ofNat 46) []
          (replaceChar (Char.ofNat 45) [Char.ofNat 32]
            (pyLower s.data)))) at hb
  rcases mem_replaceChar hb with h | ⟨hb, h39⟩
  · exact absurd h (List.not_mem_nil b)
  rcases mem_replaceChar hb with h | ⟨hb, h44⟩
  · exact absurd h (List.not_mem_nil b)
  rcases mem_replaceChar hb with h | ⟨hb, h46⟩
  · exact absurd h (List.not_mem_nil b)
  rcases mem_replaceChar hb with h | ⟨hb, h45⟩
  · simp only [List.mem_singleton] at h
    subst h
    refine ⟨by decide, by decide, h46, h44, h39⟩
  · exact ⟨mem_pyLower hb, h45, h46, h44, h39⟩

/-- C8: clean_name is idempotent: applying the normaliser to an already
normalised string returns it unchanged, because the output contains no
uppercase basic-latin letter, hyphen, period, comma or apostrophe. -/
theorem clean_name_idempotent (s : String) :
    clean_name (clean_name s) = clean_name s := by
  have hc := clean_name_chars (s := s)
  conv_lhs => rw [clean_name]
  rw [pyLower_fixed (fun a ha => (hc a ha).1),
      replaceChar_fixed (fun a ha => (hc a ha).2.1),
      replaceChar_fixed (fun a ha => (hc a ha).2.2.1),
      replaceChar_fixed (fun a ha => (hc a ha).2.2.2.1),
      replaceChar_fixed (fun a ha => (hc a ha).2.2.2.2)]

theorem replaceChar_nil_eq_filter (c : Char) (l : List Char) :
    replaceChar c [] l = l.filter (fun a => a ≠ c) := by
  induction l with
  | nil => rfl
  | cons a rest ih =>
    simp only [replaceChar, List.flatMap_cons] at *
    rw [ih]
    by_cases hac : a = c
    · subst hac
      simp
    · simp [hac]

theorem replaceChar_single_eq_map (c t : Char) (l : List Char) :
    replaceChar c [t] l = l.map (fun a => if a = c then t else a) := by
  induction l with
  | nil => rfl
  | cons a rest ih =>
    simp only [replaceChar, List.flatMap_cons, List.map_cons] at *
    rw [ih]
    by_cases hac : a = c
    · simp [hac]
    · simp [hac]

/-- C7: clean_name performs exactly the five spec transformations in spec
order (stated against cleanNameSpec, which is written from the spec text),
and in particular the spec example holds: the test string with case, a
hyphen, a period and an apostrophe normalises to the same string as its
plain form. -/
theorem clean_name_follows_spec :
    (∀ s, clean_name s = cleanNameSpec s) ∧
      clean_name "McDonald\x27s-Group." = clean_name "mcdonalds group" := by
  constructor
  · intro s
    unfold clean_name cleanNameSpec
    rw [replaceChar_single_eq_map, replaceChar_nil_eq_filter,
        replaceChar_nil_eq_filter, replaceChar_nil_eq_filter]
    rfl
  · rfl

/-- Left-right mirror of one evidence entry: the GBR-side and OFAC-side
payloads trade places, and the two asymmetric variants trade
constructors. -/
def swapMatch : Match → Match
  | .nameToName a b => .nameToName b a
  | .nameToAlias n v => .aliasToName v n
  | .aliasToName v n => .nameToAlias n v
  | .aliasToAlias g o => .aliasToAlias o g
  | .idMatch v c w d => .idMatch w d v c

/-- Value lists computed by nameAliasLoop when no alias value is None. -/
def nameAliasMatchesT (gbr_name : String) (as : List Alias) : List Match :=
  as.flatMap (fun a =>
    match a.value with
    | some v =>
      if clean_name gbr_name = clean_name v then [Match.nameToAlias gbr_name v] else []
    | Option.none => [])

/-- Value lists computed by aliasAliasLoop when no alias value is None. -/
def aliasAliasMatchesT (gv : String) (ras : List Alias) : List Match :=
  ras.flatMap (fun ra =>
    match ra.value with
    | some rv =>
      if clean_name gv = clean_name rv then [Match.aliasToAlias gv rv] else []
    | Option.none => [])

/-- Value lists computed by aliasOuterLoop when no alias value is None. -/
def aliasMatchesT (ofac_name : String) (ras las : List Alias) : List Match :=
  las.flatMap (fun ga =>
    match ga.value with
    | some gv =>
      (if clean_name gv = clean_name ofac_name then [Match.aliasToName gv ofac_name] else [])
        ++ aliasAliasMatchesT gv ras
    | Option.none => [])

/-- Value lists computed by the id-number loops, as one nested flatMap. -/
def idMatchesT (lids rids : List IDNumber) : List Match :=
  lids.flatMap (fun li => rids.flatMap (fun ri =>
    if li.value = ri.value then
      [Match.idMatch li.value li.comment ri.value ri.comment]
    else []))

/-- Full match list of one record pair in the error-free case. -/
def allMatchesT (l r : Record) : List Match :=
  (if clean_name l.name = clean_name r.name then
     [Match.nameToName l.name r.name]
   else [])
    ++ nameAliasMatchesT l.name r.aliases
    ++ aliasMatchesT r.name r.aliases l.aliases
    ++ idMatchesT l.id_numbers r.id_numbers

theorem nameAliasLoop_eq_ok (gbr_name : String) (as : List Alias)
    (h : ∀ a ∈ as, a.value ≠ Option.none) :
    nameAliasLoop gbr_name as = .ok (nameAliasMatchesT gbr_name as) := by
  induction as with
  | nil => rfl
  | cons a rest ih =>
    have ha := h a (List.mem_cons_self a rest)
    cases hv : a.value with
    | none => exact absurd hv ha
    | some v =>
      have ihr := ih (fun b hb => h b (List.mem_cons_of_mem a hb))
      simp [nameAliasLoop, nameAliasMatchesT, hv, ihr, List.flatMap_cons, bind,
        Except.bind, pure, Except.pure]

theorem aliasAliasLoop_eq_ok (gv : String) (ras : List Alias)
    (h : ∀ a ∈ ras, a.value ≠ Option.none) :
    aliasAliasLoop gv ras = .ok (aliasAliasMatchesT gv ras) := by
  induction ras with
  | nil => rfl
  | cons a rest ih =>
    have ha := h a (List.mem_cons_self a rest)
    cases hv : a.value with
    | none => exact absurd hv ha
    | some v =>
      have ihr := ih (fun b hb => h b (List.mem_cons_of_mem a hb))
      simp [aliasAliasLoop, aliasAliasMatchesT, hv, ihr, List.flatMap_cons, bind,
        Except.bind, pure, Except.pure]

theorem aliasOuterLoop_eq_ok (ofac_name : String) (ras las : List Alias)
    (hr : ∀ a ∈ ras, a.value ≠ Option.none)
    (hl : ∀ a ∈ las, a.value ≠ Option.none) :
    aliasOuterLoop ofac_name ras las = .ok (aliasMatchesT ofac_name ras las) := by
  induction las with
  | nil => rfl
  | cons a rest ih =>
    have ha := hl a (List.mem_cons_self a rest)
    cases hv : a.value with
    | none => exact absurd hv ha
    | some gv =>
      have ihr := ih (fun b hb => hl b (List.mem_cons_of_mem a hb))
      simp [aliasOuterLoop, aliasMatchesT, hv, ihr, aliasAliasLoop_eq_ok gv ras hr,
        List.flatMap_cons, bind, Except.bind, pure, Except.pure, List.append_assoc]

theorem get_id_matches_eq (l r : Record) :
    get_id_matches l r = idMatchesT l.id_numbers r.id_numbers := by
  unfold get_id_matches
  induction l.id_numbers with
  | nil => rfl
  | cons li rest ih =>
    simp only [idOuterLoop, idMatchesT, List.flatMap_cons] at *
    rw [ih]
    congr 1
    induction r.id_numbers with
    | nil => rfl
    | cons ri rrest ihr =>
      simp only [idInnerLoop, List.flatMap_cons]
      rw [ihr]

theorem get_all_matches_eq_ok (l r : Record)
    (hl : ∀ a ∈ l.aliases, a.value ≠ Option.none)
    (hr : ∀ a ∈ r.aliases, a.value ≠ Option.none) :
    get_all_matches l r =
      .ok { gbr_id := l.id_, ofac_id := r.id_, matches_ := allMatchesT l r } := by
  simp [get_all_matches, get_name_matches, get_alias_matches,
    nameAliasLoop_eq_ok l.name r.aliases hr,
    aliasOuterLoop_eq_ok r.name r.aliases l.aliases hr hl,
    get_id_matches_eq, allMatchesT, bind, Except.bind, pure, Except.pure,
    List.append_assoc]

theorem mem_ite_singleton {c : Prop} [Decidable c] {x m : Match} :
    (m ∈ if c then [x] else []) ↔ c ∧ m = x := by
  split <;> simp [*]

theorem mem_alias_case {o : Option String} {f : String → List Match} {m : Match} :
    (m ∈ match o with | some v => f v | Option.none => []) ↔
      ∃ v, o = some v ∧ m ∈ f v := by
  cases o <;> simp

/-- C6: on records whose alias values are all present, the matching engine
is symmetric under a left-right swap in the mirrored sense: an evidence
entry occurs in the match list of the pair (l, r) exactly when its
swapMatch mirror occurs in the match list of the pair (r, l).  swapMatch
keeps the nameToName, aliasToAlias and idMatch variants (with their two
sides exchanged) and exchanges the nameToAlias and aliasToName
constructors, so the engine produces the mirrored variant, not the same
one. -/
theorem find_matches_swap_symmetric (l r : Record)
    (hl : ∀ a ∈ l.aliases, a.value ≠ Option.none)
    (hr : ∀ a ∈ r.aliases, a.value ≠ Option.none) :
    ∃ ml mr, get_all_matches l r = .ok ml ∧ get_all_matches r l = .ok mr ∧
      ∀ m : Match, m ∈ ml.matches_ ↔ swapMatch m ∈ mr.matches_ := by
  refine ⟨_, _, get_all_matches_eq_ok l r hl hr, get_all_matches_eq_ok r l hr hl, ?_⟩
  intro m
  cases m <;>
    simp only [swapMatch, allMatchesT, nameAliasMatchesT, aliasMatchesT,
      aliasAliasMatchesT, idMatchesT, List.mem_append, List.mem_flatMap,
      mem_alias_case, mem_ite_singleton] <;>
    simp [Match.nameToName.injEq, Match.nameToAlias.injEq, Match.aliasToName.injEq,
      Match.aliasToAlias.injEq, Match.idMatch.injEq]
  case nameToName =>
    exact ⟨fun ⟨h1, h2, h3⟩ => ⟨h1.symm, h3, h2⟩, fun ⟨h1, h2, h3⟩ => ⟨h1.symm, h3, h2⟩⟩
  case nameToAlias =>
    constructor <;> rintro ⟨x, hx, v, hv, hc, h1, h2⟩ <;>
      exact ⟨x, hx, v, hv, hc.symm, h2, h1⟩
  case aliasToName =>
    constructor <;> rintro ⟨x, hx, v, hv, hc, h1, h2⟩ <;>
      exact ⟨x, hx, v, hv, hc.symm, h2, h1⟩
  case aliasToAlias =>
    constructor <;> rintro ⟨x, hx, v, hv, y, hy, w, hw, hc, h1, h2⟩ <;>
      exact ⟨y, hy, w, hw, x, hx, v, hv, hc.symm, h2, h1⟩
  case idMatch =>
    constructor <;> rintro ⟨x, hx, y, hy, hveq, e1, e2, e3, e4⟩ <;>
      exact ⟨y, hy, x, hx, hveq.symm, e3, e4, e1, e2⟩

/-- C6 witness: the swap symmetry applied to a concrete pair of records
carrying a name match, alias cross-matches and an identifier match. -/
theorem find_matches_swap_symmetric_witness :
    (∀ a ∈ [{ value := some "A-S", type_ := some "aka" : Alias }], a.value ≠ Option.none) ∧
      ∃ ml mr,
        get_all_matches
            { id_ := 1, type_ := "individual", name := "Ann-Smith",
              aliases := [{ value := some "A-S", type_ := some "aka" }],
              nationality := [], addresses := [],
              id_numbers := [{ value := some "P1", comment := some "passport" }],
              place_of_birth := Option.none, position := Option.none,
              reported_dates_of_birth := [] }
            { id_ := 2, type_ := "individual", name := "ann smith",
              aliases := [{ value := some "a.s", type_ := Option.none }],
              nationality := [], addresses := [],
              id_numbers := [{ value := some "P1", comment := some "reg" }],
              place_of_birth := Option.none, position := Option.none,
              reported_dates_of_birth := [] } = .ok ml ∧
          get_all_matches
              { id_ := 2, type_ := "individual", name := "ann smith",
                aliases := [{ value := some "a.s", type_ := Option.none }],
                nationality := [], addresses := [],
                id_numbers := [{ value := some "P1", comment := some "reg" }],
                place_of_birth := Option.none, position := Option.none,
                reported_dates_of_birth := [] }
              { id_ := 1, type_ := "individual", name := "Ann-Smith",
                aliases := [{ value := some "A-S", type_ := some "aka" }],
                nationality := [], addresses := [],
                id_numbers := [{ value := some "P1", comment := some "passport" }],
                place_of_birth := Option.none, position := Option.none,
                reported_dates_of_birth := [] } = .ok mr ∧
            ∀ m : Match, m ∈ ml.matches_ ↔ swapMatch m ∈ mr.matches_ :=
  ⟨by decide, find_matches_swap_symmetric _ _ (by decide) (by decide)⟩

/-- C1 counterexample: the claim that the matching engine and the
deduplicator are total over well-formed records fails on the code.  A
record whose alias list contains an element with a None value (exactly
what standardize_aliases produces for an alias dict without a value key)
makes get_all_matches raise AttributeError inside clean_name, and
drop_duplicates raises TypeError on every output record with a non-empty
match list. -/
theorem matching_not_total_counterexample :
    get_all_matches
        { id_ := 1, type_ := "individual", name := "ann",
          aliases := [{ value := Option.none, type_ := Option.none }],
          nationality := [], addresses := [], id_numbers := [],
          place_of_birth := Option.none, position := Option.none,
          reported_dates_of_birth := [] }
        { id_ := 2, type_ := "individual", name := "bob", aliases := [],
          nationality := [], addresses := [], id_numbers := [],
          place_of_birth := Option.none, position := Option.none,
          reported_dates_of_birth := [] } = .error .attributeError ∧
      drop_duplicates
          { gbr_id := 1, ofac_id := 2,
            matches_ := [Match.nameToName "ann" "ann"] } = .error .typeError := by
  exact ⟨rfl, rfl⟩

theorem drop_duplicates_nil_ok (rec : OutputRecord) (h : rec.matches_ = []) :
    drop_duplicates rec = .ok rec := by
  cases rec with
  | mk g o ms =>
    cases h
    rfl

theorem drop_duplicates_nonempty_err (rec : OutputRecord) (h : rec.matches_ ≠ []) :
    drop_duplicates rec = .error .typeError := by
  cases rec with
  | mk g o ms =>
    cases ms with
    | nil => exact absurd rfl h
    | cons a rest => rfl

/-- C1 (amended): clean_name and the identifier rule are total; the name
and alias rules, and hence the whole matching engine, are total exactly
on records all of whose alias values are present (a None alias value
raises); and drop_duplicates returns normally exactly on output records
whose match list is empty (a non-empty list of evidence dicts makes the
pandas deduplication raise). -/
theorem matching_totality_amended :
    (∀ l r : Record,
        (∀ a ∈ l.aliases, a.value ≠ Option.none) →
        (∀ a ∈ r.aliases, a.value ≠ Option.none) →
          ∃ out, get_all_matches l r = .ok out) ∧
      (∀ rec : OutputRecord, rec.matches_ = [] → drop_duplicates rec = .ok rec) ∧
      (∀ rec : OutputRecord, rec.matches_ ≠ [] → drop_duplicates rec = .error .typeError) :=
  ⟨fun l r hl hr => ⟨_, get_all_matches_eq_ok l r hl hr⟩,
    drop_duplicates_nil_ok, drop_duplicates_nonempty_err⟩

/-- C1 witness: the amended totality statement applied at concrete
inputs. -/
theorem matching_totality_amended_witness :
    (∃ out, get_all_matches
        { id_ := 1, type_ := "individual", name := "ann",
          aliases := [{ value := some "annie", type_ := Option.none }],
          nationality := [], addresses := [], id_numbers := [],
          place_of_birth := Option.none, position := Option.none,
          reported_dates_of_birth := [] }
        { id_ := 2, type_ := "individual", name := "bob", aliases := [],
          nationality := [], addresses := [], id_numbers := [],
          place_of_birth := Option.none, position := Option.none,
          reported_dates_of_birth := [] } = .ok out) ∧
      drop_duplicates { gbr_id := 3, ofac_id := 4, matches_ := [] } =
        .ok { gbr_id := 3, ofac_id := 4, matches_ := [] } ∧
      drop_duplicates
          { gbr_id := 3, ofac_id := 4, matches_ := [Match.aliasToAlias "q" "q"] } =
        .error .typeError :=
  ⟨matching_totality_amended.1 _ _ (by decide) (by decide),
    matching_totality_amended.2.1 _ rfl,
    matching_totality_amended.2.2 _ (by simp)⟩

/-- C9: a successful pipeline run never returns an output record with an
empty match list: pairs with no evidence are filtered out before
deduplication, and (because the pandas deduplication raises on every
non-empty match list) a run that returns at all returns only records that
passed the filter. -/
theorem run_results_have_matches (gbr ofac : List Record)
    (out : List OutputRecord) (h : runPipeline gbr ofac = .ok out) :
    ∀ rec ∈ out, rec.matches_ ≠ [] := by
  simp only [runPipeline] at h
  cases hm : (gbr.flatMap (fun g => ofac.map (fun o => (g, o)))).mapM
      (fun p => get_all_matches p.1 p.2) with
  | error e =>
    rw [hm] at h
    exact absurd h (by simp [bind, Except.bind])
  | ok allRecords =>
    rw [hm] at h
    simp only [bind, Except.bind] at h
    cases hne : allRecords.filter (fun r => !r.matches_.isEmpty) with
    | nil =>
      rw [hne] at h
      cases h
      intro rec hrec
      exact absurd hrec (List.not_mem_nil rec)
    | cons a rest =>
      rw [hne] at h
      have ha : a ∈ allRecords.filter (fun r => !r.matches_.isEmpty) := by
        rw [hne]; exact List.mem_cons_self a rest
      have hane : a.matches_ ≠ [] := by
        have := (List.mem_filter.mp ha).2
        simpa [List.isEmpty_iff] using this
      have hdrop : drop_duplicates a = .error .typeError :=
        drop_duplicates_nonempty_err a hane
      rw [List.mapM_cons, hdrop] at h
      exact absurd h (by simp [bind, Except.bind])

/-- C9 witness: a run over two unrelated one-record collections returns
the empty output, for which the property holds vacuously. -/
theorem run_results_have_matches_witness :
    runPipeline
        [{ id_ := 1, type_ := "individual", name := "ann", aliases := [],
           nationality := [], addresses := [], id_numbers := [],
           place_of_birth := Option.none, position := Option.none,
           reported_dates_of_birth := [] }]
        [{ id_ := 2, type_ := "individual", name := "bob", aliases := [],
           nationality := [], addresses := [], id_numbers := [],
           place_of_birth := Option.none, position := Option.none,
           reported_dates_of_birth := [] }] = .ok [] ∧
      ∀ rec ∈ ([] : List OutputRecord), rec.matches_ ≠ [] :=
  ⟨rfl,
    run_results_have_matches
      [⟨1, "individual", "ann", [], [], [], [], Option.none, Option.none, []⟩]
      [⟨2, "individual", "bob", [], [], [], [], Option.none, Option.none, []⟩]
      [] rfl⟩

theorem pyInt_ne_missing (v : RawValue) (f : String) :
    pyInt v ≠ .error (.missingRequiredField f) := by
  cases v <;> simp only [pyInt] <;> try simp
  split <;> simp

theorem liftDyn_ne_missing {α : Type} (o : Option α) (f : String) :
    liftDyn o ≠ .error (.missingRequiredField f) := by
  cases o <;> simp [liftDyn]

/-- C2 counterexample: the claim that standardization fails with a
missing-required-field error exactly when id, type or name is absent is
too strong: a raw map whose id is present but not integer-coercible and
which also lacks type and name fails with the coercion error, because the
id coercion runs before the type and name presence checks. -/
theorem standardize_coercion_preempts_missing :
    standardize_record [("id", RawValue.str "abc")] = .error .typeCoercionError ∧
      ([("id", RawValue.str "abc")]).lookup "type" = (Option.none : Option RawValue) := by
  exact ⟨rfl, rfl⟩

/-- C2 (amended): the missing-required-field error is raised only for the
fields id, type and name and only when the named field is absent; a map
lacking id always fails that way; when the earlier required fields are
present (id with an integer value), a missing type, then a missing name,
fail the same way; and a map carrying only the three required fields
standardizes successfully with every optional field at its documented
empty or None default. -/
theorem standardize_required_fields :
    (∀ d : List (String × RawValue), d.lookup "id" = Option.none →
        standardize_record d = .error (.missingRequiredField "id")) ∧
      (∀ (d : List (String × RawValue)) (f : String),
        standardize_record d = .error (.missingRequiredField f) →
          (f = "id" ∨ f = "type" ∨ f = "name") ∧ d.lookup f = Option.none) ∧
      (∀ (d : List (String × RawValue)) (n : Int),
        d.lookup "id" = some (RawValue.int n) → d.lookup "type" = Option.none →
          standardize_record d = .error (.missingRequiredField "type")) ∧
      (∀ (d : List (String × RawValue)) (n : Int) (v : RawValue),
        d.lookup "id" = some (RawValue.int n) → d.lookup "type" = some v →
          d.lookup "name" = Option.none →
            standardize_record d = .error (.missingRequiredField "name")) ∧
      (∀ (n : Int) (t nm : String),
        standardize_record [("id", RawValue.int n), ("type", RawValue.str t),
            ("name", RawValue.str nm)] =
          .ok { id_ := n, type_ := t, name := nm, aliases := [], nationality := [],
                addresses := [], id_numbers := [], place_of_birth := Option.none,
                position := Option.none, reported_dates_of_birth := [] }) := by
  refine ⟨?_, ?_, ?_, ?_, ?_⟩
  · intro d h
    simp [standardize_record, h, bind, Except.bind]
  · intro d f h
    simp only [standardize_record, bind, Except.bind, pure, Except.pure] at h
    repeat' split at h
    all_goals simp_all [pyInt_ne_missing, liftDyn_ne_missing]
    all_goals (subst f; assumption)
  · intro d n h1 h2
    simp [standardize_record, h1, h2, pyInt, bind, Except.bind]
  · intro d n v h1 h2 h3
    simp [standardize_record, h1, h2, h3, pyInt, bind, Except.bind]
  · intro n t nm
    rfl

/-- C2 witness: the amended standardization contract applied at concrete
raw maps. -/
theorem standardize_required_fields_witness :
    standardize_record [("name", RawValue.str "x")] =
        .error (.missingRequiredField "id") ∧
      (("id" = "id" ∨ "id" = "type" ∨ "id" = "name") ∧
        ([] : List (String × RawValue)).lookup "id" = Option.none) ∧
      standardize_record [("id", RawValue.int 5)] =
        .error (.missingRequiredField "type") ∧
      standardize_record [("id", RawValue.int 5), ("type", RawValue.str "entity")] =
        .error (.missingRequiredField "name") ∧
      standardize_record [("id", RawValue.int 3), ("type", RawValue.str "entity"),
          ("name", RawValue.str "acme")] =
        .ok { id_ := 3, type_ := "entity", name := "acme", aliases := [],
              nationality := [], addresses := [], id_numbers := [],
              place_of_birth := Option.none, position := Option.none,
              reported_dates_of_birth := [] } :=
  ⟨standardize_required_fields.1 [("name", RawValue.str "x")] rfl,
    standardize_required_fields.2.1 [] "id" rfl,
    standardize_required_fields.2.2.1 [("id", RawValue.int 5)] 5 rfl rfl,
    standardize_required_fields.2.2.2.1
      [("id", RawValue.int 5), ("type", RawValue.str "entity")] 5
      (RawValue.str "entity") rfl rfl rfl,
    standardize_required_fields.2.2.2.2 3 "entity" "acme"⟩

/-- C3: the deduplicator does not implement first-occurrence structural
deduplication: on the match list A, B, A, C (A repeated) the pandas-backed
drop_duplicates raises TypeError instead of returning A, B, C, because the
evidence entries are dicts and dicts cannot be hashed. -/
theorem drop_duplicates_raises_on_repeat :
    drop_duplicates
        { gbr_id := 1, ofac_id := 2,
          matches_ := [Match.nameToName "x" "x", Match.aliasToAlias "y" "y",
                       Match.nameToName "x" "x",
                       Match.idMatch (some "z") Option.none (some "z") Option.none] } =
      .error .typeError := by
  exact rfl

/-- C4: on the Ali Hassan example pair the matching engine does return
exactly the name match followed by the identifier match, in the fixed
name-before-identifier order, but the full pipeline then raises TypeError
inside drop_duplicates instead of yielding that PairResult. -/
theorem pipeline_ali_hassan :
    get_all_matches
        ⟨1, "individual", "Ali Hassan", [], [], [],
          [⟨some "X1", some "passport"⟩], Option.none, Option.none, []⟩
        ⟨9, "individual", "ali hassan", [], [], [],
          [⟨some "X1", some "reg"⟩], Option.none, Option.none, []⟩ =
      .ok { gbr_id := 1, ofac_id := 9,
            matches_ := [Match.nameToName "Ali Hassan" "ali hassan",
                         Match.idMatch (some "X1") (some "passport")
                           (some "X1") (some "reg")] } ∧
      runPipeline
          [⟨1, "individual", "Ali Hassan", [], [], [],
            [⟨some "X1", some "passport"⟩], Option.none, Option.none, []⟩]
          [⟨9, "individual", "ali hassan", [], [], [],
            [⟨some "X1", some "reg"⟩], Option.none, Option.none, []⟩] =
        .error .typeError := by
  exact ⟨rfl, rfl⟩

/-- C5: the identifier rule does emit one IdentifierMatch per equal-valued
pair of id numbers, two entries for the A123 example (one per right-side
occurrence, with identical comments here), but drop_duplicates then raises
TypeError on that list instead of collapsing the equal entries to one. -/
theorem id_matches_then_dedup_raises :
    get_all_matches
        ⟨1, "entity", "GBR Co", [], [], [],
          [⟨some "A123", some "passport"⟩], Option.none, Option.none, []⟩
        ⟨2, "entity", "OFAC Co", [], [], [],
          [⟨some "A123", some "passport"⟩, ⟨some "A123", some "passport"⟩],
          Option.none, Option.none, []⟩ =
      .ok { gbr_id := 1, ofac_id := 2,
            matches_ := [Match.idMatch (some "A123") (some "passport")
                           (some "A123") (some "passport"),
                         Match.idMatch (some "A123") (some "passport")
                           (some "A123") (some "passport")] } ∧
      drop_duplicates
          { gbr_id := 1, ofac_id := 2,
            matches_ := [Match.idMatch (some "A123") (some "passport")
                           (some "A123") (some "passport"),
                         Match.idMatch (some "A123") (some "passport")
                           (some "A123") (some "passport")] } =
        .error .typeError := by
  exact ⟨rfl, rfl⟩

/-- C10: drop_duplicates copies gbr_id and ofac_id unchanged in the only
case in which it returns at all, the empty match list; on any non-empty
match list it raises TypeError and produces no output record whose id
fields could be compared. -/
theorem drop_duplicates_id_fields :
    drop_duplicates { gbr_id := 7, ofac_id := 8, matches_ := [] } =
        .ok { gbr_id := 7, ofac_id := 8, matches_ := [] } ∧
      drop_duplicates
          { gbr_id := 7, ofac_id := 8, matches_ := [Match.aliasToAlias "q" "q"] } =
        .error .typeError := by
  exact ⟨rfl, rfl⟩

end SparkDemo
